import Mathlib

/-!
Shallow embedding of the `eactx` lifecycle-context wrapper (src/context.go,
with the earlier draft src/main.go embedded alongside for comparison).

Modelling choices:
* Callbacks (`func()`) are identified by `Nat` ids; a registry is a `List Nat`
  and a dispatch pass produces a log (`List Nat`) of the ids invoked, in order.
* The wrapped token (`context.Context`) is modelled by `Ctx`: an identity `id`
  (a fresh derivation gets a fresh id), its value chain `vals` (most recent
  association first, as produced by nested `context.WithValue`), and an
  optional deadline.  Whether and how the token settles is environmental, so
  the monitor takes the settled sentinel as a parameter.
* `ctx.Err()` is classified as a `Sentinel`: `nilErr` (err == nil),
  `canceled` (errors.Is(err, context.Canceled)), `deadlineExceeded`
  (errors.Is(err, context.DeadlineExceeded)), or `other`.
* Go zero values matter: in `Clone` the struct literal omits `cond`, `done`
  and the monitor launch, so the clone has `condInit = false`,
  `done = false`, `monitorLaunched = false`; in `startMonitoring` the local
  `var newState State` starts at the zero value of `State`, which is
  `Created`.
* `CancelWithWait` blocks on the condition variable until the monitor of the
  current generation has finished; its happens-before contract lets the
  sequential model fold the monitor completion into the call: if the
  generation is not yet done and a monitor goroutine exists, the call returns
  the post-monitor state.  Waiting with a nil condition variable is a nil
  pointer dereference, modelled as `panicNilCond`; waiting with a live
  condition variable but no monitor never returns, modelled as
  `blocksForever`.
-/

namespace Eactx

/-- Lifecycle state, from src/context.go lines 11-20 (`State int`, iota).
`Created` is the zero value. -/
inductive State where
  | Created
  | Running
  | Canceled
  | Deadlined
  | Finished
deriving DecidableEq, Repr

/-- Classification of the token error `ctx.Err()` at monitor wake time. -/
inductive Sentinel where
  | nilErr
  | canceled
  | deadlineExceeded
  | other
deriving DecidableEq, Repr

/-- The wrapped token: identity of the derivation, value chain (most recent
first), optional deadline.  Mirrors the `context.Context` collaborator as
used by this layer. -/
structure Ctx where
  id : Nat
  vals : List (Nat × Nat)
  deadline : Option Nat
deriving DecidableEq, Repr

/-- The wrapper, from src/context.go lines 22-36.  `cancelId` stands for the
`cancel context.CancelFunc` field (the trigger paired with the token);
`condInit` records whether `cond` was initialized (`sync.NewCond`);
`monitorLaunched` records whether `go cw.startMonitoring()` was executed for
the current generation (constructors and `Reset` do, `Clone` does not). -/
structure Context where
  ctx : Ctx
  cancelId : Nat
  condInit : Bool
  done : Bool
  state : State
  onDone : List Nat
  onCancel : List Nat
  onTimeout : List Nat
  monitorLaunched : Bool
deriving DecidableEq, Repr

/-- src/context.go lines 138-143: `setState` stores a new lifecycle state
under the mutex. -/
def Context.setState (cw : Context) (state : State) : Context :=
  { cw with state := state }

/-- src/context.go lines 44-68: the body of `startMonitoring` after the
token's done channel fired, with `s` the classification of `cw.ctx.Err()`.
`var newState State` starts at the zero value `Created` and the switch only
assigns it for the canceled / deadline-exceeded sentinels; `callbacks`
likewise stays nil outside those two cases.  Returns the updated wrapper and
the dispatch log of the callbacks invoked. -/
def Context.monitorWake (cw : Context) (s : Sentinel) : Context × List Nat :=
  let p : State × List Nat :=
    match s with
    | Sentinel.canceled => (State.Canceled, cw.onCancel)
    | Sentinel.deadlineExceeded => (State.Deadlined, cw.onTimeout)
    | _ => (State.Created, [])
  if p.1 ≠ State.Running then
    (cw.setState p.1, p.2)
  else
    (cw.setState State.Finished, cw.onDone)

/-- src/context.go lines 39-73: `startMonitoring` sets `Running`, suspends
until the token settles (with sentinel `s`), runs `monitorWake`, then sets
`done = true` and broadcasts. -/
def Context.startMonitoring (cw : Context) (s : Sentinel) : Context × List Nat :=
  let c1 := cw.setState State.Running
  let p := c1.monitorWake s
  ({ p.1 with done := true }, p.2)

/-- src/main.go lines 38-61: the earlier draft of `startMonitoring`.  It
classifies `ctx.Err()` with a plain switch (default branch sets `Finished`)
and then always runs the `onDone` loop, whatever the cause. -/
def Context.startMonitoringMain (cw : Context) (s : Sentinel) : Context × List Nat :=
  let c1 := cw.setState State.Running
  let p : Context × List Nat :=
    match s with
    | Sentinel.canceled => (c1.setState State.Canceled, c1.onCancel)
    | Sentinel.deadlineExceeded => (c1.setState State.Deadlined, c1.onTimeout)
    | Sentinel.other => (c1.setState State.Finished, [])
    | Sentinel.nilErr => (c1, [])
  (p.1, p.2 ++ c1.onDone)

/-- src/context.go lines 76-80: `OnDone` appends a non-nil callback to the
`onDone` registry; `none` stands for a nil `func()`. -/
def Context.OnDone (cw : Context) (f : Option Nat) : Context :=
  match f with
  | none => cw
  | some g => { cw with onDone := cw.onDone ++ [g] }

/-- src/context.go lines 82-87: `OnCancel`. -/
def Context.OnCancel (cw : Context) (f : Option Nat) : Context :=
  match f with
  | none => cw
  | some g => { cw with onCancel := cw.onCancel ++ [g] }

/-- src/context.go lines 89-94: `OnTimeout`. -/
def Context.OnTimeout (cw : Context) (f : Option Nat) : Context :=
  match f with
  | none => cw
  | some g => { cw with onTimeout := cw.onTimeout ++ [g] }

/-- src/context.go lines 101-104: `IsDone` is true iff `state` is neither
`Created` nor `Running`. -/
def Context.IsDone (cw : Context) : Bool :=
  decide (cw.state ≠ State.Created) && decide (cw.state ≠ State.Running)

/-- src/context.go lines 106-109: `Cancel` invokes the trigger.  The trigger
acts on the token (making it settle with the canceled sentinel if it had not
settled yet) and touches none of the wrapper fields; a `context.CancelFunc`
is idempotent, so a repeated call is a no-op. -/
def Context.Cancel (cw : Context) : Context :=
  cw

/-- Possible outcomes of `CancelWithWait` in the sequential model. -/
inductive WaitResult where
  | panicNilCond
  | blocksForever
  | returns (cw : Context) (log : List Nat)
deriving DecidableEq, Repr

/-- src/context.go lines 111-119: `CancelWithWait` invokes the trigger, then
loops `for !cw.done { cw.cond.Wait() }`.  If `done` already holds the loop
body never runs and the call returns at once with no dispatch.  Otherwise
`cond.Wait()` is reached: with a nil `cond` this dereferences a nil pointer;
with a live `cond` the caller is woken exactly when the generation's monitor
has finished, so the call returns the post-monitor state (`s` classifies the
sentinel the token settles with, `Sentinel.canceled` for a cancel-capable
generation). -/
def Context.CancelWithWait (cw : Context) (s : Sentinel) : WaitResult :=
  let c0 := cw.Cancel
  if c0.done then
    WaitResult.returns c0 []
  else if c0.condInit = false then
    WaitResult.panicNilCond
  else if c0.monitorLaunched then
    let p := c0.startMonitoring s
    WaitResult.returns p.1 p.2
  else
    WaitResult.blocksForever

/-- src/context.go lines 126-129 delegating to `context.Context.Value`: the
value chain is searched from the most recent association outward; an absent
key yields nil (`none`). -/
def Context.Value (cw : Context) (key : Nat) : Option Nat :=
  (cw.ctx.vals.find? (fun p => p.1 == key)).map Prod.snd

/-- src/context.go lines 160-163: `WithValue` replaces the stored token by
`context.WithValue(cw.ctx, key, value)`, which prepends the association to
the chain. -/
def Context.WithValue (cw : Context) (key value : Nat) : Context :=
  { cw with ctx := { cw.ctx with vals := (key, value) :: cw.ctx.vals } }

/-- src/context.go lines 145-158: `Reset` derives a fresh token and trigger
from the parent (`newId` is the fresh derivation identity, `parentVals` the
parent's value chain), restores `Created`, nils all three registries, clears
`done`, and launches a new monitor.  The mutex and condition variable are
untouched. -/
def Context.Reset (cw : Context) (parentVals : List (Nat × Nat)) (newId : Nat) :
    Context :=
  { cw with
    ctx := { id := newId, vals := parentVals, deadline := none }
    cancelId := newId
    state := State.Created
    onDone := []
    onCancel := []
    onTimeout := []
    done := false
    monitorLaunched := true }

/-- src/context.go lines 165-176: `Clone` builds a struct literal copying
only `ctx`, `cancel`, `state` and (by `append` to a fresh slice) the three
registries.  `cond` and `done` keep their zero values and no monitor is
launched. -/
def Context.Clone (cw : Context) : Context :=
  { ctx := cw.ctx
    cancelId := cw.cancelId
    condInit := false
    done := false
    state := cw.state
    onDone := cw.onDone
    onCancel := cw.onCancel
    onTimeout := cw.onTimeout
    monitorLaunched := false }

/-- src/context.go lines 197-210: `NewContextWithCancel` derives a fresh
token and trigger from the parent, starts at `Created`, initializes the
condition variable, and launches the monitor. -/
def NewContextWithCancel (parentVals : List (Nat × Nat)) (newId : Nat) : Context :=
  { ctx := { id := newId, vals := parentVals, deadline := none }
    cancelId := newId
    condInit := true
    done := false
    state := State.Created
    onDone := []
    onCancel := []
    onTimeout := []
    monitorLaunched := true }

/-- src/context.go lines 212-225: `NewContextWithTimeout` is the same with a
deadline-capable derivation. -/
def NewContextWithTimeout (parentVals : List (Nat × Nat)) (newId : Nat)
    (timeout : Nat) : Context :=
  { ctx := { id := newId, vals := parentVals, deadline := some timeout }
    cancelId := newId
    condInit := true
    done := false
    state := State.Created
    onDone := []
    onCancel := []
    onTimeout := []
    monitorLaunched := true }

/-- Callbacks are invoked only inside `startMonitoring`, and a monitor
goroutine exists for the current generation exactly when the source executed
`go cw.startMonitoring()` for it (constructors and `Reset` do; `Clone` does
not).  The dispatch log of a generation settling with sentinel `s` is
therefore the monitor's log when a monitor was launched and empty
otherwise. -/
def Context.generationLog (cw : Context) (s : Sentinel) : List Nat :=
  if cw.monitorLaunched then (cw.startMonitoring s).2 else []

end Eactx

namespace Eactx

/-- Claim C1: the spec requires the `onDone` snapshot to be dispatched after
every termination cause, but in src/context.go the branch dispatching
`onDone` is guarded by `newState == Running`, which never holds (the local
starts at the zero value `Created` and is only ever set to `Canceled` or
`Deadlined`), so a registered `onDone` callback is dispatched for no
sentinel at all; the earlier draft in src/main.go does dispatch it after a
manual cancellation. -/
theorem c1_onDone_dropped :
    (∀ s : Sentinel,
      (((NewContextWithCancel [] 0).OnDone (some 7)).startMonitoring s).2.count 7 = 0)
    ∧ (((NewContextWithCancel [] 0).OnDone (some 7)).startMonitoringMain
        Sentinel.canceled).2 = [7] := by
  refine ⟨fun s => ?_, by decide⟩
  cases s <;> decide

end Eactx

namespace Eactx

/-- Claim C2: on a cancel-capable instance whose generation is live (monitor
launched, condition variable initialized, generation not yet done),
`CancelWithWait` returns with `state = Canceled`, `IsDone = true`, and the
dispatch log is exactly the `onCancel` registry as registered before the
cancellation, so every callback registered via `OnCancel` beforehand is
invoked exactly as many times as it was registered (once, for a single
registration); the returned state is terminal, so no intermediate state is
observable after the call. -/
theorem c2_cancelWithWait (cw : Context)
    (hdone : cw.done = false) (hcond : cw.condInit = true)
    (hmon : cw.monitorLaunched = true) :
    ∃ c1 log, cw.CancelWithWait Sentinel.canceled = WaitResult.returns c1 log
      ∧ c1.state = State.Canceled
      ∧ c1.IsDone = true
      ∧ log = cw.onCancel
      ∧ ∀ g, log.count g = cw.onCancel.count g := by
  refine ⟨{ cw with state := State.Canceled, done := true }, cw.onCancel,
    ?_, rfl, rfl, rfl, fun g => rfl⟩
  simp [Context.CancelWithWait, Context.Cancel, Context.startMonitoring,
    Context.monitorWake, Context.setState, hdone, hcond, hmon]

/-- Claim C2, witness: a fresh cancel-capable instance with one `onCancel`
callback registered, evaluated concretely. -/
theorem c2_cancelWithWait_witness :
    ∃ c1 log, ((NewContextWithCancel [] 0).OnCancel (some 5)).CancelWithWait
        Sentinel.canceled = WaitResult.returns c1 log
      ∧ c1.state = State.Canceled
      ∧ c1.IsDone = true
      ∧ log = ((NewContextWithCancel [] 0).OnCancel (some 5)).onCancel
      ∧ ∀ g, log.count g
          = ((NewContextWithCancel [] 0).OnCancel (some 5)).onCancel.count g :=
  c2_cancelWithWait ((NewContextWithCancel [] 0).OnCancel (some 5)) rfl rfl rfl

/-- Claim C3: the spec says an unclassified sentinel (including a nil error)
must yield `state = Finished`, but src/context.go leaves `newState` at the
zero value `Created` in that case and the guard `newState != Running` is
then true, so the monitor stores `Created`, not `Finished`; the earlier
draft in src/main.go does store `Finished` for an unknown non-nil error. -/
theorem c3_unknown_sentinel_not_finished :
    ((NewContextWithCancel [] 0).startMonitoring Sentinel.other).1.state
        = State.Created
    ∧ ((NewContextWithCancel [] 0).startMonitoring Sentinel.nilErr).1.state
        = State.Created
    ∧ ((NewContextWithCancel [] 0).startMonitoringMain Sentinel.other).1.state
        = State.Finished := by
  decide

/-- Claim C4: the state machine is claimed never to regress within a
generation, but when the monitor wakes with an unclassified sentinel it
stores the zero value `Created` over `Running`, a regression on the
`Created → Running → terminal` order. -/
theorem c4_state_regression :
    ((NewContextWithCancel [] 0).setState State.Running).state = State.Running
    ∧ (((NewContextWithCancel [] 0).setState State.Running).monitorWake
        Sentinel.other).1.state = State.Created := by
  decide

/-- Claim C5: `Reset` on a terminal instance restores `Created`, empties all
three registries, clears the generation-done flag, and a subsequent
`CancelWithWait` on the new generation reaches `Canceled` again. -/
theorem c5_reset (cw : Context) (pv : List (Nat × Nat)) (nid : Nat)
    (hterm : cw.IsDone = true) (hcond : cw.condInit = true) :
    (cw.Reset pv nid).state = State.Created
    ∧ (cw.Reset pv nid).onDone = []
    ∧ (cw.Reset pv nid).onCancel = []
    ∧ (cw.Reset pv nid).onTimeout = []
    ∧ (cw.Reset pv nid).done = false
    ∧ (cw.Reset pv nid).CancelWithWait Sentinel.canceled
        = WaitResult.returns
            { cw.Reset pv nid with state := State.Canceled, done := true } [] := by
  refine ⟨rfl, rfl, rfl, rfl, rfl, ?_⟩
  simp [Context.CancelWithWait, Context.Cancel, Context.Reset,
    Context.startMonitoring, Context.monitorWake, Context.setState, hcond]

/-- Claim C5, witness: a concretely canceled (terminal) instance is reset
and canceled again. -/
theorem c5_reset_witness :
    let cw : Context := { NewContextWithCancel [] 0 with
      state := State.Canceled, done := true }
    (cw.Reset [] 1).state = State.Created
    ∧ (cw.Reset [] 1).onDone = []
    ∧ (cw.Reset [] 1).onCancel = []
    ∧ (cw.Reset [] 1).onTimeout = []
    ∧ (cw.Reset [] 1).done = false
    ∧ (cw.Reset [] 1).CancelWithWait Sentinel.canceled
        = WaitResult.returns
            { cw.Reset [] 1 with state := State.Canceled, done := true } [] :=
  c5_reset { NewContextWithCancel [] 0 with
      state := State.Canceled, done := true } [] 1 (by decide) rfl

end Eactx

namespace Eactx

/-- Claim C6: `Clone` shares the original's token and trigger (the same
`ctx` and `cancel` references, not a fresh derivation), copies the state and
the contents of the three registries as of clone time, and launches no
monitor, so a callback registered on the clone after cloning belongs to no
dispatch log for any sentinel. -/
theorem c6_clone (cw : Context) (g : Nat) (s : Sentinel) :
    cw.Clone.ctx = cw.ctx
    ∧ cw.Clone.cancelId = cw.cancelId
    ∧ cw.Clone.state = cw.state
    ∧ cw.Clone.onDone = cw.onDone
    ∧ cw.Clone.onCancel = cw.onCancel
    ∧ cw.Clone.onTimeout = cw.onTimeout
    ∧ cw.Clone.monitorLaunched = false
    ∧ (cw.Clone.OnDone (some g)).generationLog s = []
    ∧ (cw.Clone.OnCancel (some g)).generationLog s = []
    ∧ (cw.Clone.OnTimeout (some g)).generationLog s = [] := by
  refine ⟨rfl, rfl, rfl, rfl, rfl, rfl, rfl, ?_, ?_, ?_⟩ <;>
    simp [Context.generationLog, Context.Clone, Context.OnDone,
      Context.OnCancel, Context.OnTimeout]

/-- Claim C7: registering a nil callback is a silent no-op leaving the
instance unchanged, and registering a non-nil callback appends it to the end
of the corresponding registry, touching nothing else. -/
theorem c7_registration (cw : Context) (g : Nat) :
    cw.OnDone none = cw
    ∧ cw.OnCancel none = cw
    ∧ cw.OnTimeout none = cw
    ∧ cw.OnDone (some g) = { cw with onDone := cw.onDone ++ [g] }
    ∧ cw.OnCancel (some g) = { cw with onCancel := cw.onCancel ++ [g] }
    ∧ cw.OnTimeout (some g) = { cw with onTimeout := cw.onTimeout ++ [g] } :=
  ⟨rfl, rfl, rfl, rfl, rfl, rfl⟩

/-- Claim C8: after `WithValue(key, value)`, `Value(key)` returns exactly
that value (the most recent association wins, and other keys are
unaffected); a key absent from the whole chain (including what was inherited
from the parent) yields `none`. -/
theorem c8_value (cw : Context) (k v k2 : Nat)
    (habs : ∀ p ∈ cw.ctx.vals, p.1 ≠ k2) :
    (cw.WithValue k v).Value k = some v
    ∧ (∀ k3, k3 ≠ k → (cw.WithValue k v).Value k3 = cw.Value k3)
    ∧ cw.Value k2 = none := by
  refine ⟨?_, fun k3 hk3 => ?_, ?_⟩
  · simp [Context.Value, Context.WithValue]
  · have hne : (k == k3) = false := beq_eq_false_iff_ne.mpr (Ne.symm hk3)
    simp [Context.Value, Context.WithValue, List.find?, hne]
  · have h : List.find? (fun p => p.1 == k2) cw.ctx.vals = none := by
      rw [List.find?_eq_none]
      intro p hp
      simpa using habs p hp
    simp [Context.Value, h]

/-- Claim C8, witness: a concrete instance holding only the key 1, queried
for the absent key 3. -/
theorem c8_value_witness :
    ((NewContextWithCancel [(1, 2)] 0).WithValue 4 9).Value 4 = some 9
    ∧ (∀ k3, k3 ≠ 4 →
        ((NewContextWithCancel [(1, 2)] 0).WithValue 4 9).Value k3
          = (NewContextWithCancel [(1, 2)] 0).Value k3)
    ∧ (NewContextWithCancel [(1, 2)] 0).Value 3 = none :=
  c8_value (NewContextWithCancel [(1, 2)] 0) 4 9 3 (by decide)

/-- Claim C9: a clone carries no initialized condition variable and no
generation-done flag, so `CancelWithWait` on a clone reaches `cond.Wait()`
with a nil condition variable (a nil pointer dereference) for every
sentinel, whereas both constructors produce an initialized condition
variable and `Reset` preserves it. -/
theorem c9_clone_cancelWithWait_unsafe (cw : Context) (s : Sentinel)
    (pv : List (Nat × Nat)) (nid tmo : Nat) :
    cw.Clone.condInit = false
    ∧ cw.Clone.done = false
    ∧ cw.Clone.CancelWithWait s = WaitResult.panicNilCond
    ∧ (NewContextWithCancel pv nid).condInit = true
    ∧ (NewContextWithTimeout pv nid tmo).condInit = true
    ∧ (cw.Reset pv nid).condInit = cw.condInit :=
  ⟨rfl, rfl, rfl, rfl, rfl, rfl⟩

/-- Claim C10: once `CancelWithWait` has returned on a live cancel-capable
generation, the generation-done flag is set, so a second `Cancel` changes
nothing and a second `CancelWithWait` returns immediately with the same
instance unchanged (state still at its terminal value) and an empty dispatch
log, for any sentinel. -/
theorem c10_cancel_idempotent (cw : Context) (s : Sentinel)
    (hdone : cw.done = false) (hcond : cw.condInit = true)
    (hmon : cw.monitorLaunched = true) :
    ∃ c1 log, cw.CancelWithWait Sentinel.canceled = WaitResult.returns c1 log
      ∧ c1.Cancel = c1
      ∧ c1.CancelWithWait s = WaitResult.returns c1 [] := by
  refine ⟨{ cw with state := State.Canceled, done := true }, cw.onCancel,
    ?_, rfl, rfl⟩
  simp [Context.CancelWithWait, Context.Cancel, Context.startMonitoring,
    Context.monitorWake, Context.setState, hdone, hcond, hmon]

/-- Claim C10, witness: a fresh cancel-capable instance, canceled twice. -/
theorem c10_cancel_idempotent_witness :
    ∃ c1 log, (NewContextWithCancel [] 0).CancelWithWait Sentinel.canceled
        = WaitResult.returns c1 log
      ∧ c1.Cancel = c1
      ∧ c1.CancelWithWait Sentinel.other = WaitResult.returns c1 [] :=
  c10_cancel_idempotent (NewContextWithCancel [] 0) Sentinel.other rfl rfl rfl

end Eactx
